import Mathlib

/-!
Shallow embedding of the graphsync transport adapter of go-data-transfer
(src/transport/graphsync/graphsync.go) and of the restart coordinator
(src/impl/restart.go), with theorems settling the specification claims.

Peers and request IDs are modelled as naturals; the registry maps of the
`Transport` struct become functions with `Option` codomains; deleting a map
entry sets it to `none`.  Go errors are an inductive type `DtError`; the
distinguished sentinel `datatransfer.ErrPause` is the constructor `errPause`.
-/

namespace DataTransfer

/-- `datatransfer.ChannelID`: triple (initiator, responder, transfer id). -/
structure ChannelID where
  initiator : Nat
  responder : Nat
  tid : Nat
  deriving DecidableEq, Repr

/-- `graphsyncKey`: pair (graphsync request ID, peer owning the request). -/
structure GsKey where
  requestID : Nat
  p : Nat
  deriving DecidableEq, Repr

/-- A graphsync `ExtensionData` (name and payload, both left abstract). -/
structure GsExt where
  name : Nat
  data : Nat
  deriving DecidableEq, Repr

/-- Go error values that flow through the adapter.  `errPause` is the pause
sentinel `datatransfer.ErrPause`; `errChannelNotFound` and
`errContextCancelled` are the named errors of the source; `codecError` is a
failure of `extension.ToExtensionData`; `sessionError` an error returned by a
session callback; `engineError` an error surfaced by the graphsync engine. -/
inductive DtError where
  | errPause
  | errChannelNotFound
  | errHandlerNotSet
  | errContextCancelled
  | codecError (code : Nat)
  | sessionError (code : Nat)
  | engineError (code : Nat)
  deriving DecidableEq, Repr

/-- Pointwise update of a function-backed map (Go `m[k] = v` / `delete`). -/
def setMap {α β : Type} [DecidableEq α] (f : α → β) (a : α) (b : β) : α → β :=
  fun x => if x = a then b else f x

/-- The registry fields of the `Transport` struct that the hooks and facade
operations read and write under `dataLock`.  `contextCancelMap` records for
each channel with a cancel handle whether its cancel function has been
invoked (`some true` = cancelled); `pending` records presence of the pending
latch; `stores` presence of a persistence-option registration. -/
structure TransportState where
  graphsyncRequestMap : GsKey → Option ChannelID
  channelIDMap : ChannelID → Option GsKey
  contextCancelMap : ChannelID → Option Bool
  pending : ChannelID → Bool
  requestorCancelledMap : ChannelID → Bool
  channelXferStarted : ChannelID → Option Bool
  pendingExtensions : ChannelID → List GsExt
  stores : ChannelID → Bool

/-- The empty registry built by `NewTransport`. -/
def initialState : TransportState where
  graphsyncRequestMap := fun _ => none
  channelIDMap := fun _ => none
  contextCancelMap := fun _ => none
  pending := fun _ => false
  requestorCancelledMap := fun _ => false
  channelXferStarted := fun _ => none
  pendingExtensions := fun _ => []
  stores := fun _ => false

/-- The double map insertion performed by `gsOutgoingRequestHook` (lines
478-479) and by `gsReqRecdHook` (lines 654-655): install the key in both
directions.  Neither hook deletes a previously installed key. -/
def installMapping (st : TransportState) (chid : ChannelID) (k : GsKey) :
    TransportState :=
  { st with
    graphsyncRequestMap := setMap st.graphsyncRequestMap k (some chid)
    channelIDMap := setMap st.channelIDMap chid (some k) }

/-- Actions a hook can take on its graphsync `hookActions`, plus the
events-handler calls the adapter makes.  `terminateWithError` carries an
`Option DtError` because the Go code can pass a nil error value through. -/
inductive HookAction where
  | terminateWithError (e : Option DtError)
  | sendExtensionData (e : GsExt)
  | updateRequestWithExtensions (e : GsExt)
  | pauseResponse
  | pauseRequest
  | validateRequest
  | usePersistenceOption
  deriving DecidableEq, Repr

/-- The registry section of `gsOutgoingRequestHook` (lines 474-490): after
`OnChannelOpened` returns `err`, lock; if `err == nil` install both mappings;
close and remove the pending latch; use the persistence option if a store is
registered. -/
def gsOutgoingRequestHookLocked (st : TransportState) (chid : ChannelID)
    (reqID peerID : Nat) (onChannelOpenedErr : Option DtError) :
    TransportState × List HookAction :=
  let st1 := if onChannelOpenedErr = none then
      installMapping st chid ⟨reqID, peerID⟩
    else st
  let st2 := { st1 with pending := setMap st1.pending chid false }
  (st2, if st.stores chid then [HookAction.usePersistenceOption] else [])

/-- The locked section of `gsReqRecdHook` (lines 632-661).  `pausedBySession`
records whether the hook already called `PauseResponse` because the session
returned `ErrPause` (line 627-630).  Returns the new state together with the
hook actions issued inside the lock, in order. -/
def gsReqRecdHookLocked (st : TransportState) (chid : ChannelID)
    (reqID p : Nat) (pausedBySession : Bool) :
    TransportState × List HookAction :=
  let hasXferStarted := (st.channelXferStarted chid).getD false
  let isRestart := (st.channelXferStarted chid).isSome
  let restartPause := isRestart && !hasXferStarted && !pausedBySession
  let paused := pausedBySession || restartPause
  let pauseActs : List HookAction :=
    if restartPause then [HookAction.pauseResponse] else []
  let st1 := { st with channelXferStarted := setMap st.channelXferStarted chid (some (!paused)) }
  let gsKey : GsKey := ⟨reqID, p⟩
  let deferred := if st1.requestorCancelledMap chid then st1.pendingExtensions chid else []
  let st2 := if st1.requestorCancelledMap chid then
      { st1 with
        requestorCancelledMap := setMap st1.requestorCancelledMap chid false
        pendingExtensions := setMap st1.pendingExtensions chid [] }
    else st1
  let st3 := installMapping st2 chid gsKey
  let storeActs : List HookAction :=
    if st3.stores chid then [HookAction.usePersistenceOption] else []
  (st3, pauseActs ++ deferred.map HookAction.sendExtensionData ++ storeActs)

/-- `cleanupChannel` (lines 724-741): delete every per-channel entry, keyed
by the channel ID and by the single engine key currently recorded for it. -/
def cleanupChannel (st : TransportState) (chid : ChannelID) (gsKey : GsKey) :
    TransportState :=
  { st with
    channelIDMap := setMap st.channelIDMap chid none
    contextCancelMap := setMap st.contextCancelMap chid none
    pending := setMap st.pending chid false
    graphsyncRequestMap := setMap st.graphsyncRequestMap gsKey none
    pendingExtensions := setMap st.pendingExtensions chid []
    requestorCancelledMap := setMap st.requestorCancelledMap chid false
    channelXferStarted := setMap st.channelXferStarted chid none
    stores := setMap st.stores chid false }

/-- `CleanupChannel` (lines 397-404): under the write lock, look up the
engine key; only when one is recorded run `cleanupChannel`. -/
def CleanupChannel (st : TransportState) (chid : ChannelID) : TransportState :=
  match st.channelIDMap chid with
  | some gsKey => cleanupChannel st chid gsKey
  | none => st

/-- `Shutdown` (lines 428-438): unregister every hook and invoke the cancel
function of every outstanding cancel handle.  No registry map is touched;
the only state change is that every present cancel handle becomes
cancelled. -/
def Shutdown (st : TransportState) : TransportState :=
  { st with
    contextCancelMap := fun c => (st.contextCancelMap c).map (fun _ => true) }

/-- `gsKeyFromChannelID` (lines 290-309).  The loop is embedded over a list
of registry snapshots, one per loop iteration: waiting on the pending latch
and retrying consumes the head of the list.  `ctxCancelled` tells whether
`ctx.Done()` fires while waiting on the latch.  `none` stands for the Go
code blocking forever on the latch (no further snapshot). -/
def gsKeyFromChannelID (chid : ChannelID) (ctxCancelled : Bool) :
    List TransportState → Option (Except DtError GsKey)
  | [] => none
  | st :: rest =>
    match st.channelIDMap chid with
    | some gsKey => some (Except.ok gsKey)
    | none =>
      if !st.pending chid then some (Except.error DtError.errChannelNotFound)
      else if ctxCancelled then some (Except.error DtError.errChannelNotFound)
      else gsKeyFromChannelID chid ctxCancelled rest

/-- Calls the facade operations make into the graphsync engine. -/
inductive EngineCall where
  | pauseRequest (rid : Nat)
  | unpauseRequest (rid : Nat) (exts : List GsExt)
  | pauseResponse (p rid : Nat)
  | unpauseResponse (p rid : Nat) (exts : List GsExt)
  | cancelResponse (p rid : Nat)
  | cancelCtx (chid : ChannelID)
  deriving DecidableEq, Repr

/-- Outcome of a facade operation: the returned error (`none` = nil), the
registry afterwards, and the engine calls made, in order. -/
structure OpResult where
  err : Option DtError
  st : TransportState
  calls : List EngineCall

/-- `PauseChannel` (lines 312-332), with the key-resolution loop running over
`sts` and the body acting on the registry `st` current once the key is
resolved.  `none` = the call blocks on the pending latch. -/
def PauseChannel (sts : List TransportState) (st : TransportState)
    (chid : ChannelID) (ctxCancelled : Bool) (peerID : Nat) :
    Option OpResult :=
  match gsKeyFromChannelID chid ctxCancelled sts with
  | none => none
  | some (Except.error e) => some ⟨some e, st, []⟩
  | some (Except.ok gsKey) =>
    if gsKey.p = peerID then
      some ⟨none, st, [EngineCall.pauseRequest gsKey.requestID]⟩
    else if st.requestorCancelledMap chid then
      some ⟨none, st, []⟩
    else
      some ⟨none, st, [EngineCall.pauseResponse gsKey.p gsKey.requestID]⟩

/-- The body of `ResumeChannel` after the engine key is known (lines
346-365).  `exts` is the result of serializing `msg` (empty when `msg` is
nil). -/
def resumeChannelWithKey (st : TransportState) (chid : ChannelID)
    (gsKey : GsKey) (exts : List GsExt) (peerID : Nat) : OpResult :=
  if gsKey.p = peerID then
    ⟨none, st, [EngineCall.unpauseRequest gsKey.requestID exts]⟩
  else if st.requestorCancelledMap chid then
    let newPend := setMap st.pendingExtensions chid (st.pendingExtensions chid ++ exts)
    ⟨none, { st with pendingExtensions := newPend }, []⟩
  else
    let newStarted := setMap st.channelXferStarted chid (some true)
    ⟨none, { st with channelXferStarted := newStarted },
     [EngineCall.unpauseResponse gsKey.p gsKey.requestID exts]⟩

/-- `ResumeChannel` (lines 335-365): resolve the key, then run the body. -/
def ResumeChannel (sts : List TransportState) (st : TransportState)
    (chid : ChannelID) (ctxCancelled : Bool) (exts : List GsExt)
    (peerID : Nat) : Option OpResult :=
  match gsKeyFromChannelID chid ctxCancelled sts with
  | none => none
  | some (Except.error e) => some ⟨some e, st, []⟩
  | some (Except.ok gsKey) => some (resumeChannelWithKey st chid gsKey exts peerID)

/-- `CloseChannel` (lines 368-393). -/
def CloseChannel (sts : List TransportState) (st : TransportState)
    (chid : ChannelID) (ctxCancelled : Bool) (peerID : Nat) :
    Option OpResult :=
  match gsKeyFromChannelID chid ctxCancelled sts with
  | none => none
  | some (Except.error e) => some ⟨some e, st, []⟩
  | some (Except.ok gsKey) =>
    if gsKey.p = peerID then
      match st.contextCancelMap chid with
      | none => some ⟨some DtError.errChannelNotFound, st, []⟩
      | some _ =>
        let newCancel := setMap st.contextCancelMap chid (some true)
        some ⟨none, { st with contextCancelMap := newCancel },
          [EngineCall.cancelCtx chid]⟩
    else if st.requestorCancelledMap chid then
      some ⟨none, st, []⟩
    else
      some ⟨none, st, [EngineCall.cancelResponse gsKey.p gsKey.requestID]⟩

/-- `minGSCancelWait` in milliseconds (line 29). -/
def minGSCancelWait : Nat := 100

/-- `maxGSCancelWait` in milliseconds (line 30). -/
def maxGSCancelWait : Nat := 1000

/-- Which case of the outer `select` of `waitForCancelComplete` fires first
(lines 203-222): the `completed` latch, the `maxGSCancelWait` timer, or
`ctx.Done()`. -/
inductive OuterSelect where
  | completedFired
  | maxWaitElapsed
  | ctxDone
  deriving DecidableEq, Repr

/-- Which case of the inner `select` (lines 211-216) fires first: the
`minGSCancelWait` timer or `ctx.Done()`. -/
inductive InnerSelect where
  | minWaitElapsed
  | ctxDone
  deriving DecidableEq, Repr

/-- Result of `waitForCancelComplete`: the returned error (`none` = nil) and
whether the full `minGSCancelWait` sleep was performed before returning. -/
structure WaitResult where
  err : Option DtError
  sleptMin : Bool
  deriving DecidableEq, Repr

/-- `waitForCancelComplete` (lines 200-223), with the nondeterminism of the
two `select` statements resolved by the two arguments.  The inner select
runs only in the `completed` branch; the `maxGSCancelWait` branch and the
`ctx.Done()` branches return at once. -/
def waitForCancelComplete (outer : OuterSelect) (inner : InnerSelect) :
    WaitResult :=
  match outer with
  | OuterSelect.completedFired =>
    match inner with
    | InnerSelect.minWaitElapsed => ⟨none, true⟩
    | InnerSelect.ctxDone => ⟨some DtError.errContextCancelled, false⟩
  | OuterSelect.maxWaitElapsed => ⟨none, false⟩
  | OuterSelect.ctxDone => ⟨some DtError.errContextCancelled, false⟩

/-- The terminal value drained from the graphsync error channel by
`executeGsRequest`: the two typed engine cancellation errors, any other
error, or no error at all (nil `lastError`). -/
inductive GsTerminal where
  | requestContextCancelledErr
  | requestCancelledErr
  | otherError (code : Nat)
  | noError
  deriving DecidableEq, Repr

/-- An events-handler call fired at request/response completion. -/
inductive SessionEvent where
  | onRequestTimedOut
  | onChannelCompleted (err : Option DtError)
  deriving DecidableEq, Repr

/-- The classification `executeGsRequest` performs after draining the
response and error channels (lines 246-287).  `internalCtxErr` is whether
`internalCtx.Err() != nil` at line 263.  Returns the session event fired,
or `none` when the executor returns silently. -/
def executeGsRequestClassify (lastError : GsTerminal) (internalCtxErr : Bool) :
    Option SessionEvent :=
  match lastError with
  | GsTerminal.requestContextCancelledErr => some SessionEvent.onRequestTimedOut
  | GsTerminal.requestCancelledErr => none
  | GsTerminal.otherError code =>
    if internalCtxErr then none
    else some (SessionEvent.onChannelCompleted (some (DtError.engineError code)))
  | GsTerminal.noError =>
    if internalCtxErr then none
    else some (SessionEvent.onChannelCompleted none)

/-- `graphsync.ResponseStatusCode` values, as enumerated in the
`gsResponseStatusCodes` map (lines 699-714). -/
inductive ResponseStatusCode where
  | requestAcknowledged
  | additionalPeers
  | notEnoughGas
  | otherProtocol
  | partialResponse
  | requestPaused
  | requestCompletedFull
  | requestCompletedPartial
  | requestRejected
  | requestFailedBusy
  | requestFailedUnknown
  | requestFailedLegal
  | requestFailedContentNotFound
  | requestCancelled
  deriving DecidableEq, Repr

/-- `gsResponseStatusCodeString` (lines 716-722) over the status codes of
the map (every listed code has an entry, so the fallthrough to
RequestFailedUnknown never fires for these values). -/
def gsResponseStatusCodeString : ResponseStatusCode → String
  | ResponseStatusCode.requestAcknowledged => "RequestAcknowledged"
  | ResponseStatusCode.additionalPeers => "AdditionalPeers"
  | ResponseStatusCode.notEnoughGas => "NotEnoughGas"
  | ResponseStatusCode.otherProtocol => "OtherProtocol"
  | ResponseStatusCode.partialResponse => "PartialResponse"
  | ResponseStatusCode.requestPaused => "RequestPaused"
  | ResponseStatusCode.requestCompletedFull => "RequestCompletedFull"
  | ResponseStatusCode.requestCompletedPartial => "RequestCompletedPartial"
  | ResponseStatusCode.requestRejected => "RequestRejected"
  | ResponseStatusCode.requestFailedBusy => "RequestFailedBusy"
  | ResponseStatusCode.requestFailedUnknown => "RequestFailedUnknown"
  | ResponseStatusCode.requestFailedLegal => "RequestFailedLegal"
  | ResponseStatusCode.requestFailedContentNotFound => "RequestFailedContentNotFound"
  | ResponseStatusCode.requestCancelled => "RequestCancelled"

/-- The error attached to a non-full responder completion: the descriptive
error built at line 684, carrying the status code symbol. -/
inductive CompletionErr where
  | responseDidNotComplete (statusStr : String)
  deriving DecidableEq, Repr

/-- A session event on the responder side (errors are `CompletionErr`). -/
inductive ResponderEvent where
  | onChannelCompleted (err : Option CompletionErr)
  deriving DecidableEq, Repr

/-- The classification `gsCompletedResponseListener` performs (lines
668-696) once the channel is found in the registry: `RequestCancelled` is
dropped; any other status fires `OnChannelCompleted` whose error is nil
exactly for `RequestCompletedFull`. -/
def gsCompletedResponseListenerClassify (status : ResponseStatusCode) :
    Option ResponderEvent :=
  if status = ResponseStatusCode.requestCancelled then none
  else if status = ResponseStatusCode.requestCompletedFull then
    some (ResponderEvent.onChannelCompleted none)
  else
    some (ResponderEvent.onChannelCompleted
      (some (CompletionErr.responseDidNotComplete (gsResponseStatusCodeString status))))

/-- Full `gsReqRecdHook` (lines 576-664), with its external collaborators as
oracles: `getResult` is `extension.GetTransferData` (`ok true` = a
data-transfer message was found, `ok false` = nil message, not ours);
`responseMessage` whether the session returned a non-nil response message;
`sessionErr` the error returned by `OnRequestReceived`/`OnResponseReceived`;
`toExtResult` the result of `extension.ToExtensionData` on the response
message.  Returns the registry afterwards and the hook actions in order. -/
def gsReqRecdHook (getResult : Except DtError Bool) (responseMessage : Bool)
    (sessionErr : Option DtError) (toExtResult : Except DtError (List GsExt))
    (st : TransportState) (chid : ChannelID) (reqID p : Nat) :
    TransportState × List HookAction :=
  match getResult with
  | Except.error e => (st, [HookAction.terminateWithError (some e)])
  | Except.ok false => (st, [])
  | Except.ok true =>
    let extPhase : Except (List HookAction) (List HookAction) :=
      if responseMessage then
        match toExtResult with
        | Except.error _ => Except.error [HookAction.terminateWithError sessionErr]
        | Except.ok exts => Except.ok (exts.map HookAction.sendExtensionData)
      else Except.ok []
    match extPhase with
    | Except.error acts => (st, acts)
    | Except.ok extActs =>
      if sessionErr ≠ none ∧ sessionErr ≠ some DtError.errPause then
        (st, extActs ++ [HookAction.terminateWithError sessionErr])
      else
        let paused := sessionErr = some DtError.errPause
        let pauseActs : List HookAction :=
          if paused then [HookAction.pauseResponse] else []
        let lockRes := gsReqRecdHookLocked st chid reqID p (decide paused)
        (lockRes.1, extActs ++ pauseActs ++ lockRes.2 ++ [HookAction.validateRequest])

/-- `gsIncomingResponseHook` (lines 772-798): `found` is whether the
graphsync request map holds the channel; `responseMessage` and `procErr`
are the result of `processExtension`; `toExtResult` the serialization of
the response message.  Returns the hook actions in order. -/
def gsIncomingResponseHook (found : Bool) (responseMessage : Bool)
    (procErr : Option DtError) (toExtResult : Except DtError (List GsExt)) :
    List HookAction :=
  if !found then []
  else
    let tail : List HookAction :=
      if procErr ≠ none then [HookAction.terminateWithError procErr] else []
    if responseMessage then
      match toExtResult with
      | Except.error _ => [HookAction.terminateWithError procErr]
      | Except.ok exts => exts.map HookAction.updateRequestWithExtensions ++ tail
    else tail

/-- `gsRequestUpdatedHook` (lines 743-769), same oracles as the incoming
response hook; sends extensions with `SendExtensionData` and terminates only
for errors other than the pause sentinel. -/
def gsRequestUpdatedHook (found : Bool) (responseMessage : Bool)
    (procErr : Option DtError) (toExtResult : Except DtError (List GsExt)) :
    List HookAction :=
  if !found then []
  else
    let tail : List HookAction :=
      if procErr ≠ none ∧ procErr ≠ some DtError.errPause then
        [HookAction.terminateWithError procErr] else []
    if responseMessage then
      match toExtResult with
      | Except.error _ => [HookAction.terminateWithError procErr]
      | Except.ok exts => exts.map HookAction.sendExtensionData ++ tail
    else tail

/-- A message sent over the data-transfer peer-to-peer messaging layer. -/
inductive NetMessage where
  | restartRequest (chid : ChannelID)
  deriving DecidableEq, Repr

/-- `validateRestartVoucher` (src/impl/restart.go lines 50-67), with
`message.NewRequest` and `m.validateVoucher` as oracles (`newRequestResult`,
`validateVoucherResult`); the validator runs only when the request was
reconstructed. -/
def validateRestartVoucher (newRequestResult : Except DtError Unit)
    (validateVoucherResult : Except DtError Unit) : Option DtError :=
  match newRequestResult with
  | Except.error e => some e
  | Except.ok _ =>
    match validateVoucherResult with
    | Except.error e => some e
    | Except.ok _ => none

/-- `restartManagerPeerReceivePush` (src/impl/restart.go lines 28-37):
revalidate the voucher, then send a restart request over the messaging
layer.  Returns the error and the list of messages sent. -/
def restartManagerPeerReceivePush (chid : ChannelID)
    (newRequestResult validateVoucherResult : Except DtError Unit)
    (sendErr : Option DtError) : Option DtError × List NetMessage :=
  match validateRestartVoucher newRequestResult validateVoucherResult with
  | some e => (some e, [])
  | none => (sendErr, [NetMessage.restartRequest chid])

/-- `restartManagerPeerReceivePull` (src/impl/restart.go lines 39-48): same
shape as the push flavor (the `isPull` flag only changes the reconstructed
request inside the oracles). -/
def restartManagerPeerReceivePull (chid : ChannelID)
    (newRequestResult validateVoucherResult : Except DtError Unit)
    (sendErr : Option DtError) : Option DtError × List NetMessage :=
  match validateRestartVoucher newRequestResult validateVoucherResult with
  | some e => (some e, [])
  | none => (sendErr, [NetMessage.restartRequest chid])

/-- One step of a hook's interaction with `dataLock`, the events handler and
the engine: acquiring/releasing the write or read side of the lock, calling
an events-handler callback, or any other action (engine calls, hook
actions). -/
inductive LockStep where
  | lockW
  | unlockW
  | lockR
  | unlockR
  | eventsCallback (name : String)
  | engineAction (name : String)
  deriving DecidableEq, Repr

/-- Whether some events-handler callback in the trace runs while the lock
depth is positive.  `d` is the current hold depth of `dataLock` (read or
write side). -/
def callbackWhileHeld (d : Nat) : List LockStep → Bool
  | [] => false
  | LockStep.lockW :: rest => callbackWhileHeld (d + 1) rest
  | LockStep.unlockW :: rest => callbackWhileHeld (d - 1) rest
  | LockStep.lockR :: rest => callbackWhileHeld (d + 1) rest
  | LockStep.unlockR :: rest => callbackWhileHeld (d - 1) rest
  | LockStep.eventsCallback _ :: rest => (d != 0) || callbackWhileHeld d rest
  | LockStep.engineAction _ :: rest => callbackWhileHeld d rest

/-- Lock/callback trace of `gsOutgoingRequestHook` (lines 456-491): the
`OnChannelOpened` callback fires before `dataLock.Lock()`; the persistence
option is used inside the lock. -/
def gsOutgoingRequestHookTrace (ours hasStore : Bool) : List LockStep :=
  if !ours then []
  else
    [LockStep.eventsCallback "OnChannelOpened", LockStep.lockW] ++
    (if hasStore then [LockStep.engineAction "UsePersistenceOption"] else []) ++
    [LockStep.unlockW]

/-- Lock/callback trace of `gsIncomingBlockHook` (lines 493-511): read-lock
bracket for the lookup, then the `OnDataReceived` callback outside it. -/
def gsIncomingBlockHookTrace (found : Bool) : List LockStep :=
  [LockStep.lockR, LockStep.unlockR] ++
  (if found then [LockStep.eventsCallback "OnDataReceived"] else [])

/-- Lock/callback trace of `gsBlockSentHook` (lines 513-533). -/
def gsBlockSentHookTrace (onWire found : Bool) : List LockStep :=
  if !onWire then []
  else
    [LockStep.lockR, LockStep.unlockR] ++
    (if found then [LockStep.eventsCallback "OnDataSent"] else [])

/-- Lock/callback trace of `gsOutgoingBlockHook` (lines 535-572). -/
def gsOutgoingBlockHookTrace (onWire found : Bool) : List LockStep :=
  if !onWire then []
  else
    [LockStep.lockR, LockStep.unlockR] ++
    (if found then [LockStep.eventsCallback "OnDataQueued"] else [])

/-- Lock/callback trace of `gsReqRecdHook` (lines 576-664): the session
callback (`OnRequestReceived` or `OnResponseReceived`) fires before
`dataLock.Lock()`; hook actions inside the lock are engine-ward actions. -/
def gsReqRecdHookTrace (ours reachesLock : Bool) : List LockStep :=
  if !ours then []
  else
    [LockStep.eventsCallback "OnRequestReceived or OnResponseReceived"] ++
    (if reachesLock then
      [LockStep.lockW, LockStep.engineAction "hookActions", LockStep.unlockW,
       LockStep.engineAction "ValidateRequest"]
     else [])

/-- Lock/callback trace of `gsCompletedResponseListener` (lines 668-696). -/
def gsCompletedResponseListenerTrace (found dropped : Bool) : List LockStep :=
  [LockStep.lockR, LockStep.unlockR] ++
  (if found && !dropped then [LockStep.eventsCallback "OnChannelCompleted"] else [])

/-- Lock/callback trace of `gsRequestUpdatedHook` (lines 743-769): the
session callback runs inside `processExtension`, after the read-lock
bracket. -/
def gsRequestUpdatedHookTrace (found : Bool) : List LockStep :=
  [LockStep.lockR, LockStep.unlockR] ++
  (if found then
    [LockStep.eventsCallback "OnRequestReceived or OnResponseReceived"] else [])

/-- Lock/callback trace of `gsIncomingResponseHook` (lines 772-798). -/
def gsIncomingResponseHookTrace (found : Bool) : List LockStep :=
  [LockStep.lockR, LockStep.unlockR] ++
  (if found then
    [LockStep.eventsCallback "OnRequestReceived or OnResponseReceived"] else [])

/-- Lock/callback trace of `gsRequestorCancelledListener` (lines 836-844):
no events-handler callback at all. -/
def gsRequestorCancelledListenerTrace : List LockStep :=
  [LockStep.lockW, LockStep.unlockW]

/-- Lock/callback trace of `executeGsRequest` (lines 235-288): the executor
never touches `dataLock`. -/
def executeGsRequestTrace (firesTimedOut firesCompleted : Bool) : List LockStep :=
  (if firesTimedOut then [LockStep.eventsCallback "OnRequestTimedOut"] else []) ++
  (if firesCompleted then [LockStep.eventsCallback "OnChannelCompleted"] else [])

/-- Lock/callback trace of `gsNetworkSendErrorListener` (lines 847-864):
`dataLock.Lock()` with a deferred unlock, and `OnSendDataError` invoked
inside the critical section. -/
def gsNetworkSendErrorListenerTrace (found : Bool) : List LockStep :=
  [LockStep.lockW] ++
  (if found then [LockStep.eventsCallback "OnSendDataError"] else []) ++
  [LockStep.unlockW]

/-- Lock/callback trace of `gsNetworkReceiveErrorListener` (lines 867-883):
`dataLock.Lock()` with a deferred unlock, and one `OnReceiveDataError`
callback per matching channel inside the critical section. -/
def gsNetworkReceiveErrorListenerTrace (matchCount : Nat) : List LockStep :=
  [LockStep.lockW] ++
  List.replicate matchCount (LockStep.eventsCallback "OnReceiveDataError") ++
  [LockStep.unlockW]

/-- Invariant 1 of the spec data model, as claim C1 states it: the two
registry maps are mutual inverses. -/
def mutualInverses (st : TransportState) : Prop :=
  (∀ c k, st.channelIDMap c = some k → st.graphsyncRequestMap k = some c) ∧
  (∀ k c, st.graphsyncRequestMap k = some c → st.channelIDMap c = some k)

/-- The direction of invariant 1 the code does maintain: the key recorded
for a channel always maps back to that channel. -/
def halfInverse (st : TransportState) : Prop :=
  ∀ c k, st.channelIDMap c = some k → st.graphsyncRequestMap k = some c

/-- Modelled from the words of claim C2, executor side: context-cancelled
fires `OnRequestTimedOut`, request-cancelled fires nothing, and every other
outcome fires `OnChannelCompleted` with an error that is nil exactly when
the last stream error is nil.  (No dependence on the executor's own
context.) -/
def claimedExecutorEvent : GsTerminal → Option SessionEvent
  | GsTerminal.requestContextCancelledErr => some SessionEvent.onRequestTimedOut
  | GsTerminal.requestCancelledErr => none
  | GsTerminal.otherError code =>
    some (SessionEvent.onChannelCompleted (some (DtError.engineError code)))
  | GsTerminal.noError => some (SessionEvent.onChannelCompleted none)

/-- Modelled from the words of claim C3: wait for the completed latch or the
`maxGSCancelWait` ceiling, and then in either case sleep a further
`minGSCancelWait` before returning successfully; both waits abort with the
context error. -/
def claimedWaitForCancelComplete (outer : OuterSelect) (inner : InnerSelect) :
    WaitResult :=
  match outer with
  | OuterSelect.ctxDone => ⟨some DtError.errContextCancelled, false⟩
  | _ =>
    match inner with
    | InnerSelect.minWaitElapsed => ⟨none, true⟩
    | InnerSelect.ctxDone => ⟨some DtError.errContextCancelled, false⟩

/-- The extensions a list of hook actions sends via `SendExtensionData`, in
order. -/
def sentExtensions (acts : List HookAction) : List GsExt :=
  acts.filterMap (fun a =>
    match a with
    | HookAction.sendExtensionData e => some e
    | _ => none)

/-- A channel ID used by the concrete scenarios: local peer 5 initiates a
transfer with sequence number 7 towards peer 9. -/
def chA : ChannelID := ⟨5, 9, 7⟩

/-- The registry after `OpenChannel` restarts channel `chA`: the outgoing
request hook ran once for graphsync request 1 and, after the restart, again
for graphsync request 2 (both requests owned by the local peer 5). -/
def restartedState : TransportState :=
  (gsOutgoingRequestHookLocked
    (gsOutgoingRequestHookLocked initialState chA 1 5 none).1 chA 2 5 none).1

/-- A registry holding a full per-channel record for `chA`: both mappings,
a not-yet-cancelled cancel handle, a deferred extension, and a registered
store. -/
def fullRecordState : TransportState :=
  { installMapping initialState chA ⟨1, 5⟩ with
    contextCancelMap := setMap initialState.contextCancelMap chA (some false)
    pendingExtensions := setMap initialState.pendingExtensions chA [⟨0, 42⟩]
    stores := setMap initialState.stores chA true }

/-- A registry where `chA` is a restarted responder channel still paused:
the transfer-started flag is present and false. -/
def pausedRestartState : TransportState :=
  { initialState with
    channelXferStarted := setMap initialState.channelXferStarted chA (some false) }

/-- A responder-side registry for `chA` (engine key owned by remote peer 9)
with the requestor-cancelled flag set and one deferred extension already
queued. -/
def requestorCancelledState : TransportState :=
  { installMapping initialState chA ⟨3, 9⟩ with
    requestorCancelledMap := setMap initialState.requestorCancelledMap chA true
    pendingExtensions := setMap initialState.pendingExtensions chA [⟨1, 10⟩] }

/-- A registry where `chA` has a pending latch but no engine key yet. -/
def pendingOnlyState : TransportState :=
  { initialState with pending := setMap initialState.pending chA true }

/-- Claim C1, counterexample: the claim asserts the two registry maps are
mutual inverses at every observable point and, in particular, that when a
hook installs a new engine key for a channel that already had one, no stale
entry under the old key remains.  After the outgoing-request hook runs for
graphsync request 1 and then (on a restart) for graphsync request 2 on the
same channel `chA`, the stale key ⟨1, 5⟩ still maps to `chA` in the
key-to-channel map while the channel records key ⟨2, 5⟩, so the maps are
not mutual inverses. -/
theorem C1_restart_breaks_mutual_inverse : ¬ mutualInverses restartedState := by
  intro h
  have h1 : restartedState.graphsyncRequestMap ⟨1, 5⟩ = some chA := by decide
  have h2 := h.2 ⟨1, 5⟩ chA h1
  exact absurd h2 (by decide)

/-- Claim C1, amended: only one direction of the invariant holds.  Whenever
a channel records an engine key, the key-to-channel map sends that key back
to the channel (`halfInverse`); this holds initially and is preserved by the
hooks' double-map install (for an engine key not currently recorded by a
different channel — graphsync request IDs are fresh) and by
`CleanupChannel`.  The reverse direction fails after a restart: the stale
entry under the old engine key remains in the key-to-channel map. -/
theorem C1_half_inverse_invariant (st : TransportState) (chid : ChannelID)
    (k : GsKey) (h : halfInverse st)
    (hfresh : ∀ c, st.channelIDMap c = some k → c = chid) :
    halfInverse initialState ∧
    halfInverse (installMapping st chid k) ∧
    halfInverse (CleanupChannel st chid) := by
  refine ⟨?_, ?_, ?_⟩
  · intro c k2 hck
    simp [initialState] at hck
  · intro c k2 hck
    by_cases hc : c = chid
    · subst hc
      simp [installMapping, setMap] at hck
      subst hck
      simp [installMapping, setMap]
    · simp [installMapping, setMap, hc] at hck
      by_cases hk : k2 = k
      · subst hk
        exact absurd (hfresh c hck) hc
      · simpa [installMapping, setMap, hk] using h c k2 hck
  · unfold CleanupChannel
    cases hm : st.channelIDMap chid with
    | none => exact h
    | some gk =>
      intro c k2 hck
      by_cases hc : c = chid
      · subst hc
        simp [cleanupChannel, setMap] at hck
      · simp [cleanupChannel, setMap, hc] at hck
        by_cases hk : k2 = gk
        · subst hk
          have hchid := h chid k2 hm
          have hcc := h c k2 hck
          rw [hchid] at hcc
          exact absurd (Option.some.inj hcc).symm hc
        · simpa [cleanupChannel, setMap, hk] using h c k2 hck

/-- Witness for the C1 amended theorem: the preserved direction at a
concrete registry, engine key and channel. -/
theorem C1_half_inverse_invariant_witness :
    halfInverse (installMapping initialState chA ⟨1, 5⟩) ∧
    halfInverse (CleanupChannel initialState chA) := by
  have h0 : halfInverse initialState := fun c k hck => by simp [initialState] at hck
  have hf : ∀ c, initialState.channelIDMap c = some ⟨1, 5⟩ → c = chA :=
    fun c hck => by simp [initialState] at hck
  exact ⟨(C1_half_inverse_invariant initialState chA ⟨1, 5⟩ h0 hf).2.1,
         (C1_half_inverse_invariant initialState chA ⟨1, 5⟩ h0 hf).2.2⟩

/-- Claim C2, counterexample: the claim says every outcome other than the
two cancellation shapes fires `OnChannelCompleted`.  But when the
executor's internal context is cancelled (line 263) and the drained error
is nil, the executor returns with no session event, while the claim
requires `OnChannelCompleted` with a nil error. -/
theorem C2_executor_swallows_ctx_cancelled :
    executeGsRequestClassify GsTerminal.noError true = none ∧
    claimedExecutorEvent GsTerminal.noError =
      some (SessionEvent.onChannelCompleted none) ∧
    executeGsRequestClassify GsTerminal.noError true ≠
      claimedExecutorEvent GsTerminal.noError := by decide

/-- Claim C2, amended: a request-context-cancelled engine error fires
`OnRequestTimedOut` and a request-cancelled engine error fires nothing,
regardless of the executor's own context; when the executor's internal
context is cancelled, every remaining outcome also fires nothing; otherwise
the executor fires `OnChannelCompleted` with an error that is nil exactly
when the last stream error is nil.  On the responder side the
completed-response listener drops the "cancelled" status and fires
`OnChannelCompleted` with a nil error exactly for "completed full", every
other status producing an error naming the status code symbol. -/
theorem C2_terminal_classification (code : Nat) (ctx : Bool)
    (status : ResponseStatusCode) :
    executeGsRequestClassify GsTerminal.requestContextCancelledErr ctx =
      some SessionEvent.onRequestTimedOut ∧
    executeGsRequestClassify GsTerminal.requestCancelledErr ctx = none ∧
    executeGsRequestClassify (GsTerminal.otherError code) true = none ∧
    executeGsRequestClassify GsTerminal.noError true = none ∧
    executeGsRequestClassify (GsTerminal.otherError code) false =
      some (SessionEvent.onChannelCompleted (some (DtError.engineError code))) ∧
    executeGsRequestClassify GsTerminal.noError false =
      some (SessionEvent.onChannelCompleted none) ∧
    gsCompletedResponseListenerClassify ResponseStatusCode.requestCancelled = none ∧
    (gsCompletedResponseListenerClassify status =
        some (ResponderEvent.onChannelCompleted none) ↔
      status = ResponseStatusCode.requestCompletedFull) ∧
    (status ≠ ResponseStatusCode.requestCancelled →
      status ≠ ResponseStatusCode.requestCompletedFull →
      gsCompletedResponseListenerClassify status =
        some (ResponderEvent.onChannelCompleted
          (some (CompletionErr.responseDidNotComplete
            (gsResponseStatusCodeString status))))) := by
  refine ⟨rfl, rfl, rfl, rfl, rfl, rfl, rfl, ?_, ?_⟩
  · cases status <;> decide
  · intro h1 h2
    cases status <;> first | rfl | exact absurd rfl h1 | exact absurd rfl h2

/-- Witness for the C2 amended theorem: the responder-side classification
at the concrete status "partial response". -/
theorem C2_terminal_classification_witness :
    gsCompletedResponseListenerClassify ResponseStatusCode.partialResponse =
      some (ResponderEvent.onChannelCompleted
        (some (CompletionErr.responseDidNotComplete "PartialResponse"))) :=
  (C2_terminal_classification 0 true ResponseStatusCode.partialResponse).2.2.2.2.2.2.2.2
    (by decide) (by decide)

/-- Claim C3, counterexample: the claim says that after the completed latch
or the `maxGSCancelWait` ceiling, the function in either case sleeps a
further `minGSCancelWait` before returning successfully.  In the
`maxGSCancelWait` branch the code returns nil immediately (line 217-219),
with no `minGSCancelWait` sleep, diverging from the claimed behavior. -/
theorem C3_max_wait_returns_without_min_sleep :
    waitForCancelComplete OuterSelect.maxWaitElapsed InnerSelect.minWaitElapsed =
      ⟨none, false⟩ ∧
    claimedWaitForCancelComplete OuterSelect.maxWaitElapsed InnerSelect.minWaitElapsed =
      ⟨none, true⟩ ∧
    waitForCancelComplete OuterSelect.maxWaitElapsed InnerSelect.minWaitElapsed ≠
      claimedWaitForCancelComplete OuterSelect.maxWaitElapsed
        InnerSelect.minWaitElapsed := by decide

/-- Claim C3, amended: `waitForCancelComplete` sleeps the further
`minGSCancelWait` (100 ms) only after the completed latch fires; on the
`maxGSCancelWait` (1 s) safety ceiling it returns successfully at once, and
both waits abort with the context error when the context is cancelled
first. -/
theorem C3_wait_for_cancel_complete_behavior (inner : InnerSelect) :
    minGSCancelWait = 100 ∧ maxGSCancelWait = 1000 ∧
    minGSCancelWait < maxGSCancelWait ∧
    waitForCancelComplete OuterSelect.completedFired InnerSelect.minWaitElapsed =
      ⟨none, true⟩ ∧
    waitForCancelComplete OuterSelect.completedFired InnerSelect.ctxDone =
      ⟨some DtError.errContextCancelled, false⟩ ∧
    waitForCancelComplete OuterSelect.maxWaitElapsed inner = ⟨none, false⟩ ∧
    waitForCancelComplete OuterSelect.ctxDone inner =
      ⟨some DtError.errContextCancelled, false⟩ := by
  cases inner <;> decide

/-- Claim C4: the code contradicts the stated behavior.  When the session
has returned a response message with a nil (or pause-sentinel) error and
serializing that message fails, the incoming-request, incoming-response and
request-updated hooks call `TerminateWithError` with the session's earlier
return value — nil or the pause sentinel — and never with the
serialization error (graphsync.go lines 607-611, 786-789, 756-759). -/
theorem C4_codec_failure_terminates_with_session_error :
    (gsReqRecdHook (Except.ok true) true none
        (Except.error (DtError.codecError 7)) initialState chA 1 9).2 =
      [HookAction.terminateWithError none] ∧
    gsIncomingResponseHook true true none (Except.error (DtError.codecError 7)) =
      [HookAction.terminateWithError none] ∧
    gsRequestUpdatedHook true true (some DtError.errPause)
        (Except.error (DtError.codecError 7)) =
      [HookAction.terminateWithError (some DtError.errPause)] := by decide

/-- Claim C5: in the incoming-request hook, when a transfer-started flag
exists with value false and the session did not already pause, the hook
pauses the response anyway and leaves the flag false; in every other case
the locked section issues no pause and sets the flag to true exactly when
the response was not paused in this invocation (the flag becomes the
negation of the session-pause outcome). -/
theorem C5_restart_paused_flag (st : TransportState) (chid : ChannelID)
    (reqID p : Nat) (pausedBySession : Bool) :
    (st.channelXferStarted chid = some false → pausedBySession = false →
      HookAction.pauseResponse ∈ (gsReqRecdHookLocked st chid reqID p pausedBySession).2 ∧
      (gsReqRecdHookLocked st chid reqID p pausedBySession).1.channelXferStarted chid =
        some false) ∧
    (¬(st.channelXferStarted chid = some false ∧ pausedBySession = false) →
      (gsReqRecdHookLocked st chid reqID p pausedBySession).1.channelXferStarted chid =
        some (!pausedBySession) ∧
      HookAction.pauseResponse ∉ (gsReqRecdHookLocked st chid reqID p pausedBySession).2) := by
  constructor
  · intro hx hp
    subst hp
    cases hrc : st.requestorCancelledMap chid <;> cases hs : st.stores chid <;>
      refine ⟨?_, ?_⟩ <;>
      simp [gsReqRecdHookLocked, installMapping, setMap, hx, hrc, hs]
  · intro hno
    rcases hx : st.channelXferStarted chid with _ | b
    · cases pausedBySession <;> cases hrc : st.requestorCancelledMap chid <;>
        cases hs : st.stores chid <;> refine ⟨?_, ?_⟩ <;>
        simp [gsReqRecdHookLocked, installMapping, setMap, hx, hrc, hs]
    · cases b
      · cases hp : pausedBySession
        · exact absurd ⟨hx, hp⟩ hno
        · subst hp
          cases hrc : st.requestorCancelledMap chid <;> cases hs : st.stores chid <;>
            refine ⟨?_, ?_⟩ <;>
            simp [gsReqRecdHookLocked, installMapping, setMap, hx, hrc, hs]
      · cases pausedBySession <;> cases hrc : st.requestorCancelledMap chid <;>
          cases hs : st.stores chid <;> refine ⟨?_, ?_⟩ <;>
          simp [gsReqRecdHookLocked, installMapping, setMap, hx, hrc, hs]

/-- Witness for C5: the restart-while-still-paused scenario at a concrete
registry where the flag for `chA` is present and false and the session did
not pause. -/
theorem C5_restart_paused_flag_witness :
    HookAction.pauseResponse ∈ (gsReqRecdHookLocked pausedRestartState chA 2 9 false).2 ∧
    (gsReqRecdHookLocked pausedRestartState chA 2 9 false).1.channelXferStarted chA =
      some false :=
  (C5_restart_paused_flag pausedRestartState chA 2 9 false).1 (by decide) rfl

theorem sentExtensions_filterMap_send (l : List GsExt) :
    List.filterMap ((fun a =>
      match a with
      | HookAction.sendExtensionData e => some e
      | _ => none) ∘ HookAction.sendExtensionData) l = l := by
  induction l with
  | nil => rfl
  | cons a t ih => simpa using ih

/-- Claim C6: on the responder side (engine key owned by the remote peer),
`ResumeChannel` with the requestor-cancelled flag set makes no engine call
and appends the message's serialized extensions to the channel's deferred
extensions; the next incoming-request hook for that channel sends all
deferred extensions via the hook actions in FIFO order, empties the
deferred list and clears the requestor-cancelled flag. -/
theorem C6_deferred_extensions_replay (st : TransportState) (chid : ChannelID)
    (gsKey : GsKey) (peerID : Nat) (exts : List GsExt) (reqID p2 : Nat)
    (hkey : st.channelIDMap chid = some gsKey) (hp : gsKey.p ≠ peerID)
    (hrc : st.requestorCancelledMap chid = true) :
    ResumeChannel [st] st chid false exts peerID =
      some (resumeChannelWithKey st chid gsKey exts peerID) ∧
    (resumeChannelWithKey st chid gsKey exts peerID).calls = [] ∧
    (resumeChannelWithKey st chid gsKey exts peerID).err = none ∧
    (resumeChannelWithKey st chid gsKey exts peerID).st.pendingExtensions chid =
      st.pendingExtensions chid ++ exts ∧
    sentExtensions (gsReqRecdHook (Except.ok true) false none (Except.ok [])
        (resumeChannelWithKey st chid gsKey exts peerID).st chid reqID p2).2 =
      st.pendingExtensions chid ++ exts ∧
    (gsReqRecdHook (Except.ok true) false none (Except.ok [])
        (resumeChannelWithKey st chid gsKey exts peerID).st chid reqID p2).1.pendingExtensions
        chid = [] ∧
    (gsReqRecdHook (Except.ok true) false none (Except.ok [])
        (resumeChannelWithKey st chid gsKey exts peerID).st chid reqID
        p2).1.requestorCancelledMap chid = false := by
  refine ⟨?_, ?_, ?_, ?_, ?_, ?_, ?_⟩
  · simp [ResumeChannel, gsKeyFromChannelID, hkey]
  · simp [resumeChannelWithKey, hp, hrc]
  · simp [resumeChannelWithKey, hp, hrc]
  · simp [resumeChannelWithKey, hp, hrc, setMap]
  · rcases hxf : st.channelXferStarted chid with _ | b <;>
      [skip; cases b] <;> cases hs : st.stores chid <;>
      simp [resumeChannelWithKey, hp, hrc, setMap, gsReqRecdHook, gsReqRecdHookLocked,
        installMapping, hxf, hs, sentExtensions, List.filterMap_append,
        sentExtensions_filterMap_send]
  · simp [resumeChannelWithKey, hp, hrc, setMap, gsReqRecdHook, gsReqRecdHookLocked,
      installMapping]
  · simp [resumeChannelWithKey, hp, hrc, setMap, gsReqRecdHook, gsReqRecdHookLocked,
      installMapping]

/-- Witness for C6: the requestor-cancelled replay scenario at a concrete
responder-side registry for `chA`. -/
theorem C6_deferred_extensions_replay_witness :
    ResumeChannel [requestorCancelledState] requestorCancelledState chA false
        [⟨2, 20⟩] 5 =
      some (resumeChannelWithKey requestorCancelledState chA ⟨3, 9⟩ [⟨2, 20⟩] 5) ∧
    (resumeChannelWithKey requestorCancelledState chA ⟨3, 9⟩ [⟨2, 20⟩] 5).calls = [] ∧
    (resumeChannelWithKey requestorCancelledState chA ⟨3, 9⟩ [⟨2, 20⟩] 5).err = none ∧
    (resumeChannelWithKey requestorCancelledState chA ⟨3, 9⟩
        [⟨2, 20⟩] 5).st.pendingExtensions chA =
      requestorCancelledState.pendingExtensions chA ++ [⟨2, 20⟩] ∧
    sentExtensions (gsReqRecdHook (Except.ok true) false none (Except.ok [])
        (resumeChannelWithKey requestorCancelledState chA ⟨3, 9⟩ [⟨2, 20⟩] 5).st chA 4 9).2 =
      requestorCancelledState.pendingExtensions chA ++ [⟨2, 20⟩] ∧
    (gsReqRecdHook (Except.ok true) false none (Except.ok [])
        (resumeChannelWithKey requestorCancelledState chA ⟨3, 9⟩ [⟨2, 20⟩]
          5).st chA 4 9).1.pendingExtensions chA = [] ∧
    (gsReqRecdHook (Except.ok true) false none (Except.ok [])
        (resumeChannelWithKey requestorCancelledState chA ⟨3, 9⟩ [⟨2, 20⟩]
          5).st chA 4 9).1.requestorCancelledMap chA = false :=
  C6_deferred_extensions_replay requestorCancelledState chA ⟨3, 9⟩ 5 [⟨2, 20⟩] 4 9
    (by decide) (by decide) (by decide)

/-- Claim C7, counterexample: the claim says that after `Shutdown` no
channel's record remains in the registry.  For a registry holding a full
record for `chA`, `Shutdown` leaves the engine-key mappings, the deferred
extension and the store flag all in place (the code only unregisters hooks
and cancels cancel handles, lines 428-438). -/
theorem C7_shutdown_keeps_records :
    (Shutdown fullRecordState).channelIDMap chA = some ⟨1, 5⟩ ∧
    (Shutdown fullRecordState).graphsyncRequestMap ⟨1, 5⟩ = some chA ∧
    (Shutdown fullRecordState).pendingExtensions chA = [⟨0, 42⟩] ∧
    (Shutdown fullRecordState).stores chA = true := by decide

/-- Claim C7, amended: `Shutdown` unregisters every hook and cancels every
outstanding cancel handle but destroys no per-channel record: both
engine-key maps, the pending latches, the flags, the deferred extensions
and the store flags are all left exactly as they were; records are
destroyed only by `CleanupChannel`. -/
theorem C7_shutdown_effect (st : TransportState) (c : ChannelID) (h : Bool) :
    (Shutdown st).graphsyncRequestMap = st.graphsyncRequestMap ∧
    (Shutdown st).channelIDMap = st.channelIDMap ∧
    (Shutdown st).pending = st.pending ∧
    (Shutdown st).requestorCancelledMap = st.requestorCancelledMap ∧
    (Shutdown st).channelXferStarted = st.channelXferStarted ∧
    (Shutdown st).pendingExtensions = st.pendingExtensions ∧
    (Shutdown st).stores = st.stores ∧
    (st.contextCancelMap c = some h → (Shutdown st).contextCancelMap c = some true) ∧
    (st.contextCancelMap c = none → (Shutdown st).contextCancelMap c = none) := by
  refine ⟨rfl, rfl, rfl, rfl, rfl, rfl, rfl, ?_, ?_⟩ <;>
    intro hc <;> simp [Shutdown, hc]

/-- Witness for the C7 amended theorem: the outstanding cancel handle of
`chA` is cancelled by `Shutdown` of the concrete full-record registry. -/
theorem C7_shutdown_effect_witness :
    (Shutdown fullRecordState).contextCancelMap chA = some true :=
  (C7_shutdown_effect fullRecordState chA false).2.2.2.2.2.2.2.1 (by decide)

/-- Claim C8: in the peer-received push and peer-received pull restart
flavors, voucher revalidation runs before any network traffic — whether
reconstructing the original request (`message.NewRequest`) or rerunning
voucher validation fails, the restart returns that error and no message is
sent over the peer-to-peer messaging layer. -/
theorem C8_revalidation_before_network (chid : ChannelID) (e : DtError)
    (vv : Except DtError Unit) (sendErr : Option DtError) :
    restartManagerPeerReceivePush chid (Except.error e) vv sendErr = (some e, []) ∧
    restartManagerPeerReceivePull chid (Except.error e) vv sendErr = (some e, []) ∧
    restartManagerPeerReceivePush chid (Except.ok ()) (Except.error e) sendErr =
      (some e, []) ∧
    restartManagerPeerReceivePull chid (Except.ok ()) (Except.error e) sendErr =
      (some e, []) :=
  ⟨rfl, rfl, rfl, rfl⟩

/-- Claim C9, counterexample: the claim says no events-handler callback is
invoked while the registry lock is held, for every hook and listener.  The
network send-error listener invokes `OnSendDataError`, and the network
receive-error listener invokes `OnReceiveDataError`, inside their
`dataLock.Lock()` / deferred-unlock critical sections (lines 847-864 and
867-883). -/
theorem C9_send_error_listener_callback_under_lock :
    callbackWhileHeld 0 (gsNetworkSendErrorListenerTrace true) = true ∧
    callbackWhileHeld 0 (gsNetworkReceiveErrorListenerTrace 1) = true := by decide

/-- Claim C9, amended: every hook and listener except the two network-error
listeners invokes events-handler callbacks only with the registry lock not
held; the network send-error listener and the network receive-error
listener invoke `OnSendDataError` / `OnReceiveDataError` while holding the
registry write lock. -/
theorem C9_lock_discipline (a b : Bool) (n : Nat) :
    callbackWhileHeld 0 (gsOutgoingRequestHookTrace a b) = false ∧
    callbackWhileHeld 0 (gsIncomingBlockHookTrace a) = false ∧
    callbackWhileHeld 0 (gsBlockSentHookTrace a b) = false ∧
    callbackWhileHeld 0 (gsOutgoingBlockHookTrace a b) = false ∧
    callbackWhileHeld 0 (gsReqRecdHookTrace a b) = false ∧
    callbackWhileHeld 0 (gsCompletedResponseListenerTrace a b) = false ∧
    callbackWhileHeld 0 (gsRequestUpdatedHookTrace a) = false ∧
    callbackWhileHeld 0 (gsIncomingResponseHookTrace a) = false ∧
    callbackWhileHeld 0 gsRequestorCancelledListenerTrace = false ∧
    callbackWhileHeld 0 (executeGsRequestTrace a b) = false ∧
    callbackWhileHeld 0 (gsNetworkSendErrorListenerTrace true) = true ∧
    callbackWhileHeld 0 (gsNetworkReceiveErrorListenerTrace (n + 1)) = true := by
  cases a <;> cases b <;>
    exact ⟨rfl, rfl, rfl, rfl, rfl, rfl, rfl, rfl, rfl, rfl, rfl, rfl⟩

/-- Claim C10: `gsKeyFromChannelID` collapses context cancellation into the
channel-not-found error.  For a channel with a pending latch but no engine
key, cancelling the caller's context while waiting makes `PauseChannel`,
`ResumeChannel` and `CloseChannel` return `ErrChannelNotFound` (not the
context error); the same error is returned when the channel has neither a
mapping nor a pending latch. -/
theorem C10_await_key_not_found (st : TransportState) (chid : ChannelID)
    (exts : List GsExt) (peerID : Nat) (ctxCancelled : Bool)
    (hnokey : st.channelIDMap chid = none) :
    (st.pending chid = true →
      PauseChannel [st] st chid true peerID =
        some ⟨some DtError.errChannelNotFound, st, []⟩ ∧
      ResumeChannel [st] st chid true exts peerID =
        some ⟨some DtError.errChannelNotFound, st, []⟩ ∧
      CloseChannel [st] st chid true peerID =
        some ⟨some DtError.errChannelNotFound, st, []⟩) ∧
    (st.pending chid = false →
      PauseChannel [st] st chid ctxCancelled peerID =
        some ⟨some DtError.errChannelNotFound, st, []⟩ ∧
      ResumeChannel [st] st chid ctxCancelled exts peerID =
        some ⟨some DtError.errChannelNotFound, st, []⟩ ∧
      CloseChannel [st] st chid ctxCancelled peerID =
        some ⟨some DtError.errChannelNotFound, st, []⟩) := by
  constructor <;> intro hp <;> refine ⟨?_, ?_, ?_⟩ <;>
    simp [PauseChannel, ResumeChannel, CloseChannel, gsKeyFromChannelID, hnokey, hp]

/-- Witness for C10: pending-latch-plus-cancelled-context and
no-record-at-all scenarios at concrete registries. -/
theorem C10_await_key_not_found_witness :
    PauseChannel [pendingOnlyState] pendingOnlyState chA true 5 =
      some ⟨some DtError.errChannelNotFound, pendingOnlyState, []⟩ ∧
    PauseChannel [initialState] initialState chA false 5 =
      some ⟨some DtError.errChannelNotFound, initialState, []⟩ :=
  ⟨((C10_await_key_not_found pendingOnlyState chA [] 5 true (by decide)).1 (by decide)).1,
   ((C10_await_key_not_found initialState chA [] 5 false (by decide)).2 (by decide)).1⟩

end DataTransfer
